import Mathlib

/-!
Shallow embedding of `backend/services/crowd_intelligence.py` (Spottr).

Conventions of the embedding:
* Python floats are modelled as exact rationals (`ℚ`); the literals `0.8`,
  `-0.8`, `0.3` become `4/5`, `-(4/5)`, `3/10`.
* The Python dict `self.hazards` is an insertion-ordered association list
  `List (String × Hazard)`; assignment to an existing key replaces the value
  in place, assignment to a fresh key appends (CPython dict semantics).
* `time.time()` is an explicit `now : ℚ` argument threaded through each
  operation (the handful of `time.time()` calls inside one operation are
  identified, which no claim distinguishes).
* The haversine distance `_calculate_distance` is floating-point
  trigonometry; it is abstracted as a `Config` field
  `calcDistance : (ℚ × ℚ) → (ℚ × ℚ) → ℚ`, since every claim depends only on
  comparisons of its result against a radius.
* Python's `ZeroDivisionError` (float division by zero raises in Python) is
  modelled by `Option`/`Except`: `update_hazard_status` returns `none` when
  `total_weight == 0`, and `submit_feedback` then returns `Except.error`
  carrying the state as left behind by the in-place mutations already
  performed before the failing division.
-/

namespace Spottr

/-- Hazard verification status (`HazardStatus` enum). -/
inductive HazardStatus where
  | unverified
  | verified
  | disputed
  | resolved
  | expired
deriving DecidableEq, Repr

/-- User feedback types (`FeedbackType` enum). -/
inductive FeedbackType where
  | confirm
  | deny
  | update
  | resolve
deriving DecidableEq, Repr

/-- Individual user feedback on a hazard (`UserFeedback` dataclass). -/
structure UserFeedback where
  user_id : String
  feedback_type : FeedbackType
  timestamp : ℚ
  location : Option (ℚ × ℚ) := none
  confidence : ℚ := 1
  comment : Option String := none
deriving DecidableEq, Repr

/-- Hazard with crowd intelligence data (`Hazard` dataclass). -/
structure Hazard where
  hazard_id : String
  class_name : String
  initial_confidence : ℚ
  location : ℚ × ℚ
  bbox : List ℚ
  detection_timestamp : ℚ
  status : HazardStatus := .unverified
  confirmations : ℕ := 0
  denials : ℕ := 0
  total_feedback : ℕ := 0
  confidence_score : ℚ := 0
  last_updated : ℚ := 0
  feedback_history : List UserFeedback := []
  verified_by : List String := []
  severity : String := "medium"
  expires_at : Option ℚ := none
deriving DecidableEq, Repr

/-- The `self.stats` counter dictionary of `CrowdIntelligenceService`. -/
structure Stats where
  total_hazards : ℕ := 0
  verified_hazards : ℕ := 0
  resolved_hazards : ℕ := 0
  disputed_hazards : ℕ := 0
  total_feedback : ℕ := 0
  unique_contributors : ℕ := 0
deriving DecidableEq, Repr

/-- Service configuration (constructor arguments of `CrowdIntelligenceService`),
together with the abstracted haversine distance function (see module header). -/
structure Config where
  verification_threshold : ℕ := 3
  denial_threshold : ℕ := 2
  expiry_hours : ℕ := 24
  proximity_radius_meters : ℚ := 50
  calcDistance : (ℚ × ℚ) → (ℚ × ℚ) → ℚ

/-- Mutable state of the service: the hazard store (`self.hazards`), the
per-user feedback index (`self.user_feedback`) and the counters (`self.stats`). -/
structure ServiceState where
  hazards : List (String × Hazard) := []
  user_feedback : List (String × List String) := []
  stats : Stats := {}
deriving DecidableEq, Repr

/-- Dictionary lookup on the association list (first entry with the key). -/
def dictGet : List (String × α) → String → Option α
  | [], _ => none
  | p :: t, k => if p.1 = k then some p.2 else dictGet t k

/-- Dictionary assignment: replace the value in place when the key exists,
append otherwise (CPython insertion-order semantics). -/
def dictInsert : List (String × α) → String → α → List (String × α)
  | [], k, v => [(k, v)]
  | p :: t, k, v => if p.1 = k then (k, v) :: t else p :: dictInsert t k v

/-- The `self.user_feedback[user_id].append(hazard_id)` of a `defaultdict(list)`:
append to the existing entry's list in place, or create a fresh singleton entry. -/
def indexAppend : List (String × List String) → String → String → List (String × List String)
  | [], u, hid => [(u, [hid])]
  | p :: t, u, hid =>
    if p.1 = u then (u, p.2 ++ [hid]) :: t else p :: indexAppend t u hid

/-- The `severity_map.get(class_name, 'medium')` lookup of `_calculate_severity`. -/
def severity_map (class_name : String) : String :=
  if class_name = "Pothole" then "high"
  else if class_name = "Speed Breaker" then "medium"
  else if class_name = "Debris" then "critical"
  else if class_name = "Road Crack" then "low"
  else "medium"

/-- The numeric `severity_levels` dict of `_calculate_severity`
(`'low': 1, 'medium': 2, 'high': 3, 'critical': 4`). -/
def severity_levels (s : String) : ℕ :=
  if s = "low" then 1
  else if s = "medium" then 2
  else if s = "high" then 3
  else 4

/-- The reverse numeric-to-name dict of `_calculate_severity`. -/
def severity_of_level (n : ℕ) : String :=
  if n = 1 then "low"
  else if n = 2 then "medium"
  else if n = 3 then "high"
  else "critical"

/-- `CrowdIntelligenceService._calculate_severity`: base severity from the class
map, upgraded one numeric level when `confidence > 0.8` and the base severity is
`medium` or `high`. -/
def calculate_severity (class_name : String) (confidence : ℚ) : String :=
  let base_severity := severity_map class_name
  if confidence > 4/5 ∧ (base_severity = "medium" ∨ base_severity = "high") then
    severity_of_level (min (severity_levels base_severity + 1) 4)
  else
    base_severity

/-- `CrowdIntelligenceService._find_nearby_hazard`: first stored hazard (in
insertion order) with matching class, distance within the proximity radius and
status not RESOLVED. -/
def find_nearby_hazard (cfg : Config) (st : ServiceState)
    (location : ℚ × ℚ) (class_name : String) : Option Hazard :=
  (st.hazards.find? (fun p =>
    decide (p.2.class_name = class_name ∧
      cfg.calcDistance location p.2.location ≤ cfg.proximity_radius_meters ∧
      p.2.status ≠ HazardStatus.resolved))).map Prod.snd

/-- The fresh `Hazard(...)` record built by `add_hazard` when no nearby
duplicate exists, severity already assigned. -/
def freshHazard (cfg : Config) (hazard_id class_name : String) (confidence : ℚ)
    (location : ℚ × ℚ) (bbox : List ℚ) (now : ℚ) : Hazard :=
  { hazard_id := hazard_id
    class_name := class_name
    initial_confidence := confidence
    location := location
    bbox := bbox
    detection_timestamp := now
    confidence_score := confidence
    last_updated := now
    severity := calculate_severity class_name confidence
    expires_at := some (now + cfg.expiry_hours * 3600) }

/-- `CrowdIntelligenceService.add_hazard`: return an existing nearby same-class
non-resolved hazard unchanged, or insert a fresh hazard and increment
`total_hazards`. The unused `user_id` parameter of the Python method is omitted. -/
def add_hazard (cfg : Config) (st : ServiceState) (hazard_id class_name : String)
    (confidence : ℚ) (location : ℚ × ℚ) (bbox : List ℚ) (now : ℚ) :
    Hazard × ServiceState :=
  match find_nearby_hazard cfg st location class_name with
  | some existing => (existing, st)
  | none =>
    let hazard := freshHazard cfg hazard_id class_name confidence location bbox now
    (hazard,
      { st with
        hazards := dictInsert st.hazards hazard_id hazard
        stats := { st.stats with total_hazards := st.stats.total_hazards + 1 } })

/-- The `ai_weight` of `_update_hazard_status`: AI confidence decaying linearly
over 24 hours to a 0.3 floor. -/
def aiWeight (detection_timestamp now : ℚ) : ℚ :=
  max (3/10) (1 - ((now - detection_timestamp) / 3600) / 24)

/-- The `confirmation_weight + initial_confidence * ai_weight` numerator of the
score formula of `_update_hazard_status` (`confirmation_weight` is
`confirmations * 1.0`). -/
def scoreNumer (h : Hazard) (now : ℚ) : ℚ :=
  h.confirmations * 1 + h.initial_confidence * aiWeight h.detection_timestamp now

/-- The `total_weight` denominator of the score formula of
`_update_hazard_status`: `confirmation_weight + abs(denial_weight) +
initial_confidence * ai_weight`, with `denial_weight = denials * -0.8`. -/
def scoreDenom (h : Hazard) (now : ℚ) : ℚ :=
  h.confirmations * 1 + |(h.denials : ℚ) * (-(4/5))| +
    h.initial_confidence * aiWeight h.detection_timestamp now

/-- The confidence-score recomputation of `_update_hazard_status`. Returns
`none` exactly when Python would raise `ZeroDivisionError`
(`total_feedback > 0` with `total_weight == 0`). -/
def compute_confidence_score (h : Hazard) (now : ℚ) : Option ℚ :=
  if h.total_feedback > 0 then
    if scoreDenom h now = 0 then none
    else some (scoreNumer h now / scoreDenom h now)
  else
    some h.initial_confidence

/-- The threshold if-chain of `_update_hazard_status` (lines setting the status
from `denials`/`confirmations` and bumping the aggregate counters), before the
trailing expiry check. -/
def branch_step (cfg : Config) (h : Hazard) (stats : Stats) : Hazard × Stats :=
  let old_status := h.status
  if h.denials ≥ cfg.denial_threshold then
    if h.confirmations < h.denials then
      ({ h with status := .resolved },
       { stats with resolved_hazards := stats.resolved_hazards + 1 })
    else
      ({ h with status := .disputed },
       { stats with disputed_hazards := stats.disputed_hazards + 1 })
  else if h.confirmations ≥ cfg.verification_threshold then
    ({ h with status := .verified },
     if old_status ≠ HazardStatus.verified then
       { stats with verified_hazards := stats.verified_hazards + 1 }
     else stats)
  else if h.denials > 0 ∧ h.confirmations > 0 then
    ({ h with status := .disputed },
     if old_status ≠ HazardStatus.disputed then
       { stats with disputed_hazards := stats.disputed_hazards + 1 }
     else stats)
  else (h, stats)

/-- The expiry test shared by the trailing check of `_update_hazard_status` and
by `cleanup_expired`: `expires_at` truthy (Python: `None` and `0.0` are falsy),
in the past, and no confirmations. -/
def shouldExpire (h : Hazard) (now : ℚ) : Bool :=
  match h.expires_at with
  | some e => decide (e ≠ 0) && decide (now > e) && decide (h.confirmations = 0)
  | none => false

/-- The trailing expiry check of `_update_hazard_status`: force EXPIRED when
past a truthy `expires_at` with zero confirmations. -/
def expiry_override (h : Hazard) (now : ℚ) : Hazard :=
  if shouldExpire h now then { h with status := .expired } else h

/-- The status-threshold and aggregate-counter part of `_update_hazard_status`
(everything after the score assignment), including the trailing expiry check. -/
def status_step (cfg : Config) (h : Hazard) (stats : Stats) (now : ℚ) :
    Hazard × Stats :=
  (expiry_override (branch_step cfg h stats).1 now, (branch_step cfg h stats).2)

/-- `CrowdIntelligenceService._update_hazard_status`: recompute the confidence
score (possibly failing with a division by zero, modelled as `none`), then run
the status state machine and counter updates. -/
def update_hazard_status (cfg : Config) (h : Hazard) (stats : Stats) (now : ℚ) :
    Option (Hazard × Stats) :=
  (compute_confidence_score h now).map
    (fun score => status_step cfg { h with confidence_score := score } stats now)

/-- The proximity rejection test of `submit_feedback`: a supplied
`user_location` farther than the proximity radius from the hazard. -/
def rejectedByDistance (cfg : Config) (h : Hazard) (user_location : Option (ℚ × ℚ)) : Bool :=
  match user_location with
  | some loc => decide (cfg.calcDistance h.location loc > cfg.proximity_radius_meters)
  | none => false

/-- The counter update of `submit_feedback` keyed on the feedback type:
CONFIRM increments confirmations, DENY and RESOLVE increment denials,
UPDATE changes neither. -/
def applyFeedbackType (h : Hazard) (t : FeedbackType) : Hazard :=
  match t with
  | .confirm => { h with confirmations := h.confirmations + 1 }
  | .deny => { h with denials := h.denials + 1 }
  | .resolve => { h with denials := h.denials + 1 }
  | .update => h

/-- The feedback record built by `submit_feedback`. -/
def mkFeedback (user_id : String) (feedback_type : FeedbackType)
    (user_location : Option (ℚ × ℚ)) (confidence : ℚ) (comment : Option String)
    (now : ℚ) : UserFeedback :=
  { user_id := user_id, feedback_type := feedback_type, timestamp := now
    location := user_location, confidence := confidence, comment := comment }

/-- The hazard after the unconditional mutations of an accepted feedback
(history append, `verified_by` append, `total_feedback`, `last_updated`). -/
def recordFeedback (hazard : Hazard) (user_id : String) (fb : UserFeedback)
    (now : ℚ) : Hazard :=
  { hazard with
    feedback_history := hazard.feedback_history ++ [fb]
    verified_by := hazard.verified_by ++ [user_id]
    total_feedback := hazard.total_feedback + 1
    last_updated := now }

/-- The global stats update of an accepted feedback: `unique_contributors`
when this is the user's first feedback ever, and global `total_feedback`. -/
def bumpStats (st : ServiceState) (user_id : String) : Stats :=
  { st.stats with
    unique_contributors := st.stats.unique_contributors +
      (if (dictGet st.user_feedback user_id).isNone then 1 else 0)
    total_feedback := st.stats.total_feedback + 1 }

/-- The accepted-feedback path of `submit_feedback` (everything after the
not-found / too-far / duplicate-user checks). -/
def acceptFeedback (cfg : Config) (st : ServiceState) (hazard_id user_id : String)
    (feedback_type : FeedbackType) (user_location : Option (ℚ × ℚ))
    (confidence : ℚ) (comment : Option String) (now : ℚ) (hazard : Hazard) :
    Except ServiceState (Option Hazard × ServiceState) :=
  match update_hazard_status cfg
      (applyFeedbackType
        (recordFeedback hazard user_id
          (mkFeedback user_id feedback_type user_location confidence comment now) now)
        feedback_type)
      (bumpStats st user_id) now with
  | none =>
    .error { hazards := dictInsert st.hazards hazard_id
               (applyFeedbackType
                 (recordFeedback hazard user_id
                   (mkFeedback user_id feedback_type user_location confidence comment now) now)
                 feedback_type)
             user_feedback := indexAppend st.user_feedback user_id hazard_id
             stats := bumpStats st user_id }
  | some (h3, stats2) =>
    .ok (some h3,
      { hazards := dictInsert st.hazards hazard_id h3
        user_feedback := indexAppend st.user_feedback user_id hazard_id
        stats := stats2 })

/-- `CrowdIntelligenceService.submit_feedback`. `Except.ok (none, st)` is the
Python `return None` (unknown hazard id, or user too far); `Except.ok (some h, st)`
returns a hazard (duplicate-user no-op, or accepted feedback); `Except.error st`
is the propagated `ZeroDivisionError` of the score recomputation, with `st` the
state left behind by the in-place mutations already performed. -/
def submit_feedback (cfg : Config) (st : ServiceState) (hazard_id user_id : String)
    (feedback_type : FeedbackType) (user_location : Option (ℚ × ℚ))
    (confidence : ℚ) (comment : Option String) (now : ℚ) :
    Except ServiceState (Option Hazard × ServiceState) :=
  match dictGet st.hazards hazard_id with
  | none => .ok (none, st)
  | some hazard =>
    if rejectedByDistance cfg hazard user_location then .ok (none, st)
    else if user_id ∈ hazard.verified_by then .ok (some hazard, st)
    else acceptFeedback cfg st hazard_id user_id feedback_type user_location
      confidence comment now hazard

/-- `CrowdIntelligenceService.cleanup_expired`: collect the ids of hazards past
expiry with zero confirmations, delete them from the store, and return the
count of removed hazards. (The transient `status = EXPIRED` mark on removed
hazards is invisible in the resulting store.) -/
def cleanup_expired (st : ServiceState) (now : ℚ) : ℕ × ServiceState :=
  let expired_ids := (st.hazards.filter (fun p => shouldExpire p.2 now)).map Prod.fst
  let hazards1 := st.hazards.filter (fun p => !(expired_ids.contains p.1))
  (expired_ids.length, { st with hazards := hazards1 })

/-! ### Specification-side definitions

These follow the wording of the spec/claims (not the code); the refinement
theorems below compare them with the definitions translated from the source. -/

/-- Spec wording `expires_at has passed`: a set expiry timestamp strictly
before `now` (the spec never mentions Python's `0.0`-falsiness). -/
def expiresPassed (h : Hazard) (now : ℚ) : Bool :=
  match h.expires_at with
  | some e => decide (now > e)
  | none => false

/-- The status transition rule exactly as the claim words it: the
denial-threshold / verification-threshold / mixed-feedback priority chain,
otherwise unchanged, with the independent expiry override. -/
def claimStatus (cfg : Config) (old : HazardStatus) (confirmations denials : ℕ)
    (passed : Bool) : HazardStatus :=
  let s :=
    if denials ≥ cfg.denial_threshold then
      if confirmations < denials then HazardStatus.resolved else HazardStatus.disputed
    else if confirmations ≥ cfg.verification_threshold then HazardStatus.verified
    else if denials > 0 ∧ confirmations > 0 then HazardStatus.disputed
    else old
  if passed = true ∧ confirmations = 0 then HazardStatus.expired else s

/-- The claim's severity lookup table. The claim spells the classes without
spaces (`SpeedBreaker`, `RoadCrack`); they denote the detector's class strings
`"Speed Breaker"`, `"Road Crack"` used by the code. -/
def severityMapClaim (class_name : String) : String :=
  if class_name = "Pothole" then "high"
  else if class_name = "Speed Breaker" then "medium"
  else if class_name = "Debris" then "critical"
  else if class_name = "Road Crack" then "low"
  else "medium"

/-- One step up the `low→medium→high→critical` chain (critical stays at the
top). -/
def upgradeOneLevel (s : String) : String :=
  if s = "low" then "medium"
  else if s = "medium" then "high"
  else if s = "high" then "critical"
  else "critical"

/-- The severity rule as amended: the one-level escalation at
`confidence > 0.8` applies only when the base severity is `medium` or `high`;
`low` and `critical` bases are left unchanged. -/
def severityAmended (class_name : String) (confidence : ℚ) : String :=
  let base := severityMapClaim class_name
  if confidence > 4/5 ∧ (base = "medium" ∨ base = "high") then upgradeOneLevel base
  else base

/-! ### Result extractors and concrete test fixtures -/

/-- The hazard returned by a `submit_feedback` result, when any. -/
def resultHazard (r : Except ServiceState (Option Hazard × ServiceState)) :
    Option Hazard :=
  match r with
  | .ok (h, _) => h
  | .error _ => none

/-- The post-state of a successful `submit_feedback` result. -/
def resultState (r : Except ServiceState (Option Hazard × ServiceState)) :
    Option ServiceState :=
  match r with
  | .ok (_, s) => some s
  | .error _ => none

/-- The state carried by a raised exception of `submit_feedback`. -/
def errState (r : Except ServiceState (Option Hazard × ServiceState)) :
    Option ServiceState :=
  match r with
  | .ok _ => none
  | .error s => some s

/-- A concrete configuration with the default thresholds and a concrete
(taxicab) instantiation of the abstracted distance function. -/
def cfgM : Config :=
  { calcDistance := fun a b => |a.1 - b.1| + |a.2 - b.2| }

/-- Fixture hazard: a Pothole at the origin, AI confidence 1/2, detected at
time 0 (exactly `add_hazard cfgM {} "hz" "Pothole" (1/2) (0,0) [] 0`
produces it, see `stB_reachable`). -/
def hzB : Hazard :=
  { hazard_id := "hz", class_name := "Pothole", initial_confidence := 1/2,
    location := (0, 0), bbox := [], detection_timestamp := 0,
    confidence_score := 1/2, last_updated := 0, severity := "high",
    expires_at := some 86400 }

/-- Fixture state: the store holding just `hzB`. -/
def stB : ServiceState :=
  { hazards := [("hz", hzB)], stats := { total_hazards := 1 } }

/-- Fixture feedback record: a CONFIRM by `"u1"` at time 0. -/
def fbC : UserFeedback :=
  { user_id := "u1", feedback_type := .confirm, timestamp := 0 }

/-- Fixture feedback records: DENY by `"u1"` resp. `"u2"` at time 0. -/
def fbD1 : UserFeedback :=
  { user_id := "u1", feedback_type := .deny, timestamp := 0 }

/-- Second DENY fixture record. -/
def fbD2 : UserFeedback :=
  { user_id := "u2", feedback_type := .deny, timestamp := 0 }

/-- Fixture: `hzB` right after an accepted CONFIRM from `"u1"` at time 0
(score `(1 + 1/2)/(1 + 1/2) = 1`). -/
def hzC : Hazard :=
  { hzB with
    confirmations := 1, total_feedback := 1, confidence_score := 1,
    feedback_history := [fbC], verified_by := ["u1"] }

/-- Fixture state holding `hzC`, with its index and counters. -/
def stC : ServiceState :=
  { hazards := [("hz", hzC)], user_feedback := [("u1", ["hz"])],
    stats := { total_hazards := 1, total_feedback := 1, unique_contributors := 1 } }

/-- Fixture: `hzB` after two accepted DENYs at time 0: RESOLVED, score
`(1/2)/(8/5 + 1/2) = 5/21`, `resolved_hazards` already bumped once. -/
def hzD : Hazard :=
  { hzB with
    denials := 2, total_feedback := 2, confidence_score := 5/21,
    status := .resolved, feedback_history := [fbD1, fbD2], verified_by := ["u1", "u2"] }

/-- Fixture state holding the RESOLVED `hzD`. -/
def stD : ServiceState :=
  { hazards := [("hz", hzD)], user_feedback := [("u1", ["hz"]), ("u2", ["hz"])],
    stats := { total_hazards := 1, total_feedback := 2, unique_contributors := 2,
               resolved_hazards := 1 } }

/-- Fixture hazard with AI confidence 0 (degenerate-weight scenario). -/
def hzZ : Hazard :=
  { hazard_id := "hz", class_name := "Pothole", initial_confidence := 0,
    location := (0, 0), bbox := [], detection_timestamp := 0,
    confidence_score := 0, last_updated := 0, severity := "high",
    expires_at := some 86400 }

/-- Fixture state holding just `hzZ`. -/
def stZ : ServiceState :=
  { hazards := [("hz", hzZ)], stats := { total_hazards := 1 } }

/-- Fixture: `hzZ` after one accepted DENY (score `0/(4/5) = 0`). -/
def hzZ1 : Hazard :=
  { hzZ with
    denials := 1, total_feedback := 1, confidence_score := 0,
    feedback_history := [fbD1], verified_by := ["u1"] }

/-- Fixture state holding `hzZ1`. -/
def stZ1 : ServiceState :=
  { hazards := [("hz", hzZ1)], user_feedback := [("u1", ["hz"])],
    stats := { total_hazards := 1, total_feedback := 1, unique_contributors := 1 } }

/-! ### Helper lemmas -/

theorem dictGet_dictInsert_self (l : List (String × α)) (k : String) (v : α) :
    dictGet (dictInsert l k v) k = some v := by
  induction l with
  | nil => simp [dictGet, dictInsert]
  | cons p t ih =>
    by_cases hpk : p.1 = k
    · simp [dictGet, dictInsert, hpk]
    · simp [dictGet, dictInsert, hpk, ih]

theorem length_dictInsert_of_isSome (l : List (String × α)) (k : String) (v : α)
    (h : (dictGet l k).isSome) : (dictInsert l k v).length = l.length := by
  induction l with
  | nil => simp [dictGet] at h
  | cons p t ih =>
    by_cases hpk : p.1 = k
    · simp [dictInsert, hpk]
    · simp only [dictGet, hpk, if_neg, ite_false] at h
      simp [dictInsert, hpk, ih h]

theorem expiry_override_expires_at (h : Hazard) (now : ℚ) :
    (expiry_override h now).expires_at = h.expires_at := by
  unfold expiry_override; split <;> rfl

theorem expiry_override_confirmations (h : Hazard) (now : ℚ) :
    (expiry_override h now).confirmations = h.confirmations := by
  unfold expiry_override; split <;> rfl

theorem expiry_override_verified_by (h : Hazard) (now : ℚ) :
    (expiry_override h now).verified_by = h.verified_by := by
  unfold expiry_override; split <;> rfl

theorem expiry_override_total_feedback (h : Hazard) (now : ℚ) :
    (expiry_override h now).total_feedback = h.total_feedback := by
  unfold expiry_override; split <;> rfl

theorem expiry_override_location (h : Hazard) (now : ℚ) :
    (expiry_override h now).location = h.location := by
  unfold expiry_override; split <;> rfl

theorem branch_step_fst (cfg : Config) (h : Hazard) (stats : Stats) :
    (branch_step cfg h stats).1 =
      { h with status := claimStatus cfg h.status h.confirmations h.denials false } := by
  unfold branch_step claimStatus
  simp only [Bool.false_eq_true, false_and, if_false]
  split_ifs <;> rfl

theorem shouldExpire_eq_of_pos (h : Hazard) (now : ℚ)
    (hpos : ∀ e, h.expires_at = some e → 0 < e) :
    shouldExpire h now = (expiresPassed h now && decide (h.confirmations = 0)) := by
  unfold shouldExpire expiresPassed
  cases hexp : h.expires_at with
  | none => rfl
  | some e =>
    have he : e ≠ 0 := ne_of_gt (hpos e hexp)
    simp [he]

theorem claimStatus_split (cfg : Config) (old : HazardStatus)
    (confirmations denials : ℕ) (passed : Bool) :
    claimStatus cfg old confirmations denials passed =
      if passed = true ∧ confirmations = 0 then HazardStatus.expired
      else claimStatus cfg old confirmations denials false := by
  unfold claimStatus
  simp only [Bool.false_eq_true, false_and, if_false]

theorem status_step_status (cfg : Config) (h : Hazard) (stats : Stats) (now : ℚ)
    (hpos : ∀ e, h.expires_at = some e → 0 < e) :
    (status_step cfg h stats now).1.status =
      claimStatus cfg h.status h.confirmations h.denials (expiresPassed h now) := by
  unfold status_step
  rw [claimStatus_split]
  have hb := branch_step_fst cfg h stats
  rw [hb]
  unfold expiry_override
  have hse : shouldExpire
      { h with status := claimStatus cfg h.status h.confirmations h.denials false } now =
      (expiresPassed h now && decide (h.confirmations = 0)) := by
    rw [shouldExpire_eq_of_pos]
    · rfl
    · exact hpos
  rw [hse]
  by_cases hp : expiresPassed h now = true ∧ h.confirmations = 0
  · rw [if_pos hp]
    obtain ⟨hp1, hp2⟩ := hp
    simp [hp1, hp2]
  · rw [if_neg hp]
    have : (expiresPassed h now && decide (h.confirmations = 0)) = false := by
      rcases Bool.eq_false_or_eq_true (expiresPassed h now) with hep | hep
      · have : ¬ h.confirmations = 0 := fun hc => hp ⟨hep, hc⟩
        simp [this]
      · simp [hep]
    rw [this]
    simp

/-- C1: after every status recomputation that completes (the score division
does not fail), the resulting status is exactly the claim's priority chain —
denial threshold first (RESOLVED/DISPUTED), then verification threshold
(VERIFIED), then mixed feedback (DISPUTED), else unchanged — with the
independent expiry override to EXPIRED when `expires_at` has passed and there
are no confirmations. (`hpos` records that every set expiry timestamp is a
positive epoch time, as produced by `add_hazard`.) -/
theorem C1_status_follows_spec (cfg : Config) (h : Hazard) (stats : Stats)
    (now : ℚ) (h' : Hazard) (stats' : Stats)
    (hpos : ∀ e, h.expires_at = some e → 0 < e)
    (heq : update_hazard_status cfg h stats now = some (h', stats')) :
    h'.status = claimStatus cfg h.status h.confirmations h.denials (expiresPassed h now) := by
  unfold update_hazard_status at heq
  rcases Option.map_eq_some'.mp heq with ⟨s, _, hpair⟩
  have hfst := congrArg Prod.fst hpair
  simp only at hfst
  rw [← hfst]
  exact status_step_status cfg { h with confidence_score := s } stats now hpos

/-- Witness for C1 at a concrete input: the fixture hazard `hzB` (no feedback
yet, not expired) keeps its status, matching the claim's chain. -/
theorem C1_status_follows_spec_witness :
    hzB.status = claimStatus cfgM hzB.status hzB.confirmations hzB.denials
      (expiresPassed hzB 0) :=
  C1_status_follows_spec cfgM hzB {} 0 hzB {}
    (by intro e he; simp [hzB] at he; subst he; norm_num)
    (by norm_num [update_hazard_status, compute_confidence_score, scoreNumer,
      scoreDenom, aiWeight, status_step, branch_step, expiry_override,
      shouldExpire, hzB, cfgM])

/-- Sanity: the fixture `stB` is exactly what `add_hazard` produces on the
empty store. -/
theorem stB_reachable :
    (add_hazard cfgM {} "hz" "Pothole" (1/2) (0, 0) [] 0).2 = stB := by
  norm_num [add_hazard, find_nearby_hazard, freshHazard, calculate_severity,
    severity_map, severity_levels, severity_of_level, dictInsert, cfgM, stB, hzB]

/-- C2: when the store already holds a hazard of the same class, within the
proximity radius of the requested location and not RESOLVED, `add_hazard`
returns such an existing stored hazard, leaves the whole state (hence
`total_hazards`) unchanged, and inserts nothing. -/
theorem C2_dedup_idempotent (cfg : Config) (st : ServiceState)
    (hazard_id class_name : String) (confidence : ℚ) (location : ℚ × ℚ)
    (bbox : List ℚ) (now : ℚ)
    (hex : ∃ p ∈ st.hazards, p.2.class_name = class_name ∧
      cfg.calcDistance location p.2.location ≤ cfg.proximity_radius_meters ∧
      p.2.status ≠ HazardStatus.resolved) :
    (add_hazard cfg st hazard_id class_name confidence location bbox now).2 = st ∧
    (add_hazard cfg st hazard_id class_name confidence location bbox now).2.stats.total_hazards
      = st.stats.total_hazards ∧
    ∃ p ∈ st.hazards,
      (add_hazard cfg st hazard_id class_name confidence location bbox now).1 = p.2 ∧
      p.2.class_name = class_name ∧
      cfg.calcDistance location p.2.location ≤ cfg.proximity_radius_meters ∧
      p.2.status ≠ HazardStatus.resolved := by
  have hsome : (st.hazards.find? (fun p =>
      decide (p.2.class_name = class_name ∧
        cfg.calcDistance location p.2.location ≤ cfg.proximity_radius_meters ∧
        p.2.status ≠ HazardStatus.resolved))).isSome := by
    rw [List.find?_isSome]
    obtain ⟨p, hp, hprop⟩ := hex
    exact ⟨p, hp, by simpa using hprop⟩
  obtain ⟨q, hq⟩ := Option.isSome_iff_exists.mp hsome
  have hmem := List.mem_of_find?_eq_some hq
  have hprop := List.find?_some hq
  simp only [decide_eq_true_eq] at hprop
  have hfind : find_nearby_hazard cfg st location class_name = some q.2 := by
    unfold find_nearby_hazard
    rw [hq]
    rfl
  unfold add_hazard
  rw [hfind]
  exact ⟨rfl, rfl, q, hmem, rfl, hprop.1, hprop.2.1, hprop.2.2⟩

/-- Witness for C2: adding a second Pothole at the fixture hazard's own
location returns the stored hazard and changes nothing. -/
theorem C2_dedup_idempotent_witness :
    (add_hazard cfgM stB "hz2" "Pothole" 0 (0, 0) [] 0).2 = stB ∧
    (add_hazard cfgM stB "hz2" "Pothole" 0 (0, 0) [] 0).2.stats.total_hazards
      = stB.stats.total_hazards ∧
    ∃ p ∈ stB.hazards,
      (add_hazard cfgM stB "hz2" "Pothole" 0 (0, 0) [] 0).1 = p.2 ∧
      p.2.class_name = "Pothole" ∧
      cfgM.calcDistance (0, 0) p.2.location ≤ cfgM.proximity_radius_meters ∧
      p.2.status ≠ HazardStatus.resolved :=
  C2_dedup_idempotent cfgM stB "hz2" "Pothole" 0 (0, 0) [] 0
    ⟨("hz", hzB), by simp [stB], rfl, by norm_num [hzB, cfgM], by simp [hzB]⟩

theorem applyFeedbackType_total_feedback (h : Hazard) (t : FeedbackType) :
    (applyFeedbackType h t).total_feedback = h.total_feedback := by
  cases t <;> rfl

theorem applyFeedbackType_verified_by (h : Hazard) (t : FeedbackType) :
    (applyFeedbackType h t).verified_by = h.verified_by := by
  cases t <;> rfl

theorem status_step_total_feedback (cfg : Config) (h : Hazard) (stats : Stats)
    (now : ℚ) : (status_step cfg h stats now).1.total_feedback = h.total_feedback := by
  unfold status_step
  rw [branch_step_fst, expiry_override_total_feedback]

theorem status_step_verified_by (cfg : Config) (h : Hazard) (stats : Stats)
    (now : ℚ) : (status_step cfg h stats now).1.verified_by = h.verified_by := by
  unfold status_step
  rw [branch_step_fst, expiry_override_verified_by]

theorem status_step_location (cfg : Config) (h : Hazard) (stats : Stats)
    (now : ℚ) : (status_step cfg h stats now).1.location = h.location := by
  unfold status_step
  rw [branch_step_fst, expiry_override_location]

theorem update_hazard_status_preserves (cfg : Config) (h : Hazard) (stats : Stats)
    (now : ℚ) (h' : Hazard) (stats' : Stats)
    (heq : update_hazard_status cfg h stats now = some (h', stats')) :
    h'.total_feedback = h.total_feedback ∧ h'.verified_by = h.verified_by ∧
    h'.location = h.location := by
  unfold update_hazard_status at heq
  rcases Option.map_eq_some'.mp heq with ⟨s, _, hpair⟩
  have hfst := congrArg Prod.fst hpair
  simp only at hfst
  rw [← hfst]
  exact ⟨status_step_total_feedback .., status_step_verified_by ..,
    status_step_location ..⟩

theorem acceptFeedback_ok_spec (cfg : Config) (st : ServiceState)
    (hazard_id user_id : String) (t : FeedbackType) (loc : Option (ℚ × ℚ))
    (conf : ℚ) (com : Option String) (now : ℚ) (hz h1 : Hazard)
    (st1 : ServiceState)
    (heq : acceptFeedback cfg st hazard_id user_id t loc conf com now hz
      = .ok (some h1, st1)) :
    h1.total_feedback = hz.total_feedback + 1 ∧
    h1.verified_by = hz.verified_by ++ [user_id] ∧
    st1.hazards = dictInsert st.hazards hazard_id h1 := by
  unfold acceptFeedback at heq
  cases hupd : update_hazard_status cfg
      (applyFeedbackType
        (recordFeedback hz user_id (mkFeedback user_id t loc conf com now) now) t)
      (bumpStats st user_id) now with
  | none => rw [hupd] at heq; cases heq
  | some pr =>
    obtain ⟨h3, stats2⟩ := pr
    rw [hupd] at heq
    simp only [Except.ok.injEq, Prod.mk.injEq, Option.some.injEq] at heq
    obtain ⟨hh, hs⟩ := heq
    subst hh
    obtain ⟨htf, hvb, -⟩ := update_hazard_status_preserves _ _ _ _ _ _ hupd
    rw [applyFeedbackType_total_feedback] at htf
    rw [applyFeedbackType_verified_by] at hvb
    refine ⟨?_, ?_, ?_⟩
    · rw [htf]; rfl
    · rw [hvb]; rfl
    · rw [← hs]

/-- C3 counterexample: a user already present in `verified_by` who submits
again from a far location gets the `None` rejection sentinel, not the hazard —
the too-far check runs before the duplicate-user check, refuting the claim for
that call. -/
theorem C3_counterexample :
    dictGet stC.hazards "hz" = some hzC ∧
    "u1" ∈ hzC.verified_by ∧
    submit_feedback cfgM stC "hz" "u1" FeedbackType.confirm (some (100, 0)) 1 none 0
      = Except.ok (none, stC) := by
  refine ⟨by simp [stC, dictGet], by simp [hzC], ?_⟩
  norm_num [submit_feedback, dictGet, stC, rejectedByDistance, cfgM, hzC, hzB]

/-- C3 as amended: a repeat submission by the same user is a state-preserving
no-op returning the hazard unchanged provided the call passes the proximity
check (`user_location` absent or within the radius); consequently two
submissions by one user — the first accepted, the second passing the proximity
check — grow `total_feedback` by exactly 1, not 2. -/
theorem C3_amended_duplicate_noop (cfg : Config) (st : ServiceState)
    (hazard_id user_id : String) (t1 t2 : FeedbackType)
    (loc1 loc2 : Option (ℚ × ℚ)) (c1 c2 : ℚ) (m1 m2 : Option String)
    (now1 now2 : ℚ) (hz h1 : Hazard) (st1 : ServiceState)
    (hget : dictGet st.hazards hazard_id = some hz)
    (hnew : user_id ∉ hz.verified_by)
    (hfirst : submit_feedback cfg st hazard_id user_id t1 loc1 c1 m1 now1
      = .ok (some h1, st1))
    (hnear2 : rejectedByDistance cfg h1 loc2 = false) :
    h1.total_feedback = hz.total_feedback + 1 ∧
    user_id ∈ h1.verified_by ∧
    dictGet st1.hazards hazard_id = some h1 ∧
    submit_feedback cfg st1 hazard_id user_id t2 loc2 c2 m2 now2
      = .ok (some h1, st1) := by
  unfold submit_feedback at hfirst
  rw [hget] at hfirst
  simp only at hfirst
  by_cases hr : rejectedByDistance cfg hz loc1 = true
  · simp [hr] at hfirst
  · rw [Bool.not_eq_true] at hr
    simp only [hr, Bool.false_eq_true, if_false] at hfirst
    rw [if_neg hnew] at hfirst
    obtain ⟨htf, hvb, hhz⟩ :=
      acceptFeedback_ok_spec cfg st hazard_id user_id t1 loc1 c1 m1 now1 hz h1 st1 hfirst
    have hget1 : dictGet st1.hazards hazard_id = some h1 := by
      rw [hhz]; exact dictGet_dictInsert_self ..
    have hmem1 : user_id ∈ h1.verified_by := by
      rw [hvb]; simp
    refine ⟨htf, hmem1, hget1, ?_⟩
    unfold submit_feedback
    rw [hget1]
    simp only [hnear2, Bool.false_eq_true, if_false]
    rw [if_pos hmem1]

/-- Witness for the amended C3: on the fixture, `"u1"` confirms once
(accepted), then a second in-range call by `"u1"` is the no-op. -/
theorem C3_amended_duplicate_noop_witness :
    hzC.total_feedback = hzB.total_feedback + 1 ∧
    "u1" ∈ hzC.verified_by ∧
    dictGet stC.hazards "hz" = some hzC ∧
    submit_feedback cfgM stC "hz" "u1" FeedbackType.confirm none 1 none 0
      = .ok (some hzC, stC) :=
  C3_amended_duplicate_noop cfgM stB "hz" "u1" .confirm .confirm none none 1 1
    none none 0 0 hzB hzC stC
    (by simp [stB, dictGet])
    (by simp [hzB])
    (by norm_num [submit_feedback, acceptFeedback, dictGet, dictInsert,
      indexAppend, stB, stC, hzB, hzC, fbC, rejectedByDistance, mkFeedback,
      recordFeedback, bumpStats, applyFeedbackType, update_hazard_status,
      compute_confidence_score, scoreNumer, scoreDenom, aiWeight, status_step,
      branch_step, expiry_override, shouldExpire, cfgM])
    rfl

/-- C4 counterexample: a RESOLVED hazard (two denials already counted once in
`resolved_hazards`) receives a third DENY; the recomputation lands on RESOLVED
again — same status as before — yet `resolved_hazards` is incremented to 2,
refuting edge-triggering for that counter. -/
theorem C4_counterexample :
    hzD.status = HazardStatus.resolved ∧
    stD.stats.resolved_hazards = 1 ∧
    (resultHazard (submit_feedback cfgM stD "hz" "u3" FeedbackType.deny none 1 none 0)).map
      Hazard.status = some HazardStatus.resolved ∧
    (resultState (submit_feedback cfgM stD "hz" "u3" FeedbackType.deny none 1 none 0)).map
      (fun s => s.stats.resolved_hazards) = some 2 := by
  refine ⟨rfl, rfl, ?_, ?_⟩ <;>
  norm_num +decide [submit_feedback, acceptFeedback, dictGet, dictInsert, indexAppend,
    stD, hzD, hzB, fbD1, fbD2, rejectedByDistance, mkFeedback, recordFeedback,
    bumpStats, applyFeedbackType, update_hazard_status, compute_confidence_score,
    scoreNumer, scoreDenom, aiWeight, status_step, branch_step, expiry_override,
    shouldExpire, cfgM, resultHazard, resultState, abs_of_nonneg, abs_of_nonpos]

/-- C4 as amended: `verified_hazards` and the mixed-feedback DISPUTED
increment are edge-triggered (they require leaving a different status), but
the denial-threshold branch increments `resolved_hazards` resp.
`disputed_hazards` on every recomputation that selects it, regardless of the
previous status. -/
theorem C4_amended_counter_increments (cfg : Config) (h : Hazard) (stats : Stats)
    (now : ℚ) :
    (status_step cfg h stats now).2.verified_hazards = stats.verified_hazards +
      (if h.status = HazardStatus.verified then 0
       else if h.denials < cfg.denial_threshold ∧
           cfg.verification_threshold ≤ h.confirmations then 1 else 0) ∧
    (status_step cfg h stats now).2.resolved_hazards = stats.resolved_hazards +
      (if cfg.denial_threshold ≤ h.denials ∧ h.confirmations < h.denials then 1 else 0) ∧
    (status_step cfg h stats now).2.disputed_hazards = stats.disputed_hazards +
      (if cfg.denial_threshold ≤ h.denials ∧ h.denials ≤ h.confirmations then 1
       else if h.status = HazardStatus.disputed then 0
       else if h.denials < cfg.denial_threshold ∧ h.confirmations < cfg.verification_threshold ∧
           0 < h.denials ∧ 0 < h.confirmations then 1 else 0) := by
  unfold status_step branch_step
  refine ⟨?_, ?_, ?_⟩ <;> split_ifs <;> (try simp_all) <;> (try omega) <;>
    (try split_ifs) <;> (try simp_all)

theorem aiWeight_pos (detection_timestamp now : ℚ) :
    0 < aiWeight detection_timestamp now :=
  lt_max_of_lt_left (by norm_num)

theorem abs_denial_weight (d : ℕ) : |(d : ℚ) * (-(4/5))| = (d : ℚ) * (4/5) := by
  rw [abs_mul]
  rw [abs_of_nonneg (by positivity : (0:ℚ) ≤ (d : ℚ))]
  norm_num

theorem scoreDenom_eq (h : Hazard) (now : ℚ) :
    scoreDenom h now = scoreNumer h now + (h.denials : ℚ) * (4/5) := by
  unfold scoreDenom scoreNumer
  rw [abs_denial_weight]
  ring

theorem scoreNumer_nonneg (h : Hazard) (now : ℚ) (hic : 0 ≤ h.initial_confidence) :
    0 ≤ scoreNumer h now := by
  unfold scoreNumer
  have := aiWeight_pos h.detection_timestamp now
  positivity

/-- C5 as amended: every score produced by the recomputation in the presence
of feedback lies in [0,1] (for a non-negative AI confidence), and one
additional denial strictly decreases the score provided the numerator
`confirmations + initial_confidence * ai_weight` is positive; with a zero
numerator (no confirmations and zero AI confidence) the score is 0 at every
denial count, so the decrease is not strict there. -/
theorem C5_amended_bounds_and_decrease (h : Hazard) (now : ℚ) (s s' : ℚ)
    (hic : 0 ≤ h.initial_confidence)
    (htf : 0 < h.total_feedback)
    (hs : compute_confidence_score h now = some s)
    (hs' : compute_confidence_score
      { h with denials := h.denials + 1, total_feedback := h.total_feedback + 1 }
      now = some s') :
    (0 ≤ s ∧ s ≤ 1) ∧ (0 < scoreNumer h now → s' < s) := by
  unfold compute_confidence_score at hs hs'
  rw [if_pos htf] at hs
  rw [if_pos (Nat.succ_pos h.total_feedback)] at hs'
  have hnum' : scoreNumer
      { h with denials := h.denials + 1, total_feedback := h.total_feedback + 1 } now
      = scoreNumer h now := rfl
  have hden' : scoreDenom
      { h with denials := h.denials + 1, total_feedback := h.total_feedback + 1 } now
      = scoreNumer h now + ((h.denials : ℚ) + 1) * (4/5) := by
    rw [scoreDenom_eq, hnum']
    push_cast
    ring
  have hden : scoreDenom h now = scoreNumer h now + (h.denials : ℚ) * (4/5) :=
    scoreDenom_eq h now
  have hN : 0 ≤ scoreNumer h now := scoreNumer_nonneg h now hic
  by_cases hd0 : scoreDenom h now = 0
  · rw [if_pos hd0] at hs
    cases hs
  · by_cases hd0' : scoreDenom
        { h with denials := h.denials + 1, total_feedback := h.total_feedback + 1 } now = 0
    · rw [if_pos hd0'] at hs'
      cases hs'
    · rw [if_neg hd0] at hs
      rw [if_neg hd0'] at hs'
      injection hs with hs1
      injection hs' with hs1'
      have hdcast : (0:ℚ) ≤ (h.denials : ℚ) := Nat.cast_nonneg _
      have hDpos : 0 < scoreDenom h now :=
        lt_of_le_of_ne (by rw [hden]; positivity) (Ne.symm hd0)
      refine ⟨⟨?_, ?_⟩, ?_⟩
      · rw [← hs1]
        exact div_nonneg hN hDpos.le
      · rw [← hs1, div_le_one hDpos, hden]
        linarith
      · intro hNpos
        rw [← hs1, ← hs1', hnum']
        apply div_lt_div_of_pos_left hNpos hDpos
        rw [hden, hden']
        linarith

/-- Witness for the amended C5 on the fixture hazard `hzD` (two denials,
AI confidence 1/2): the score `5/21` is in [0,1] and a third denial drops it
to `5/29 < 5/21`. -/
theorem C5_amended_bounds_and_decrease_witness :
    ((0:ℚ) ≤ 5/21 ∧ (5/21 : ℚ) ≤ 1) ∧
    (0 < scoreNumer hzD 0 → (5/29 : ℚ) < 5/21) :=
  C5_amended_bounds_and_decrease hzD 0 (5/21) (5/29)
    (by norm_num [hzD, hzB])
    (by norm_num [hzD, hzB])
    (by norm_num [compute_confidence_score, scoreNumer, scoreDenom, aiWeight,
      hzD, hzB, abs_of_nonneg, abs_of_nonpos])
    (by norm_num [compute_confidence_score, scoreNumer, scoreDenom, aiWeight,
      hzD, hzB, abs_of_nonneg, abs_of_nonpos])

/-- C5 counterexample: with AI confidence 0 and no confirmations the numerator
is 0, so the score is 0 at one denial and still 0 at two denials — a further
denial does not strictly decrease it. -/
theorem C5_counterexample :
    hzZ1.denials = 1 ∧ hzZ1.confidence_score = 0 ∧
    (resultHazard (submit_feedback cfgM stZ1 "hz" "u2" FeedbackType.deny none 1 none 0)).map
      Hazard.denials = some 2 ∧
    (resultHazard (submit_feedback cfgM stZ1 "hz" "u2" FeedbackType.deny none 1 none 0)).map
      Hazard.confidence_score = some 0 := by
  refine ⟨rfl, rfl, ?_, ?_⟩ <;>
  norm_num +decide [submit_feedback, acceptFeedback, dictGet, dictInsert, indexAppend,
    stZ1, hzZ1, hzZ, fbD1, rejectedByDistance, mkFeedback, recordFeedback,
    bumpStats, applyFeedbackType, update_hazard_status, compute_confidence_score,
    scoreNumer, scoreDenom, aiWeight, status_step, branch_step, expiry_override,
    shouldExpire, cfgM, resultHazard, abs_of_nonneg, abs_of_nonpos]

/-- C6 (code bug): a hazard created with AI confidence 0 that receives an
accepted UPDATE feedback reaches the score recomputation with
`total_feedback = 1 > 0` and `total_weight = 0`; the division raises
(`Except.error` in the model) instead of yielding score 0, and it does so
after the counters were already mutated, so the transaction is left partially
applied (stored hazard and global stats already show `total_feedback = 1`). -/
theorem C6_division_by_zero_failure :
    hzZ.initial_confidence = 0 ∧ hzZ.total_feedback = 0 ∧
    stZ.stats.total_feedback = 0 ∧
    (errState (submit_feedback cfgM stZ "hz" "u1" FeedbackType.update none 1 none 0)).isSome
      = true ∧
    ((errState (submit_feedback cfgM stZ "hz" "u1" FeedbackType.update none 1 none 0)).map
      fun s => s.stats.total_feedback) = some 1 ∧
    ((errState (submit_feedback cfgM stZ "hz" "u1" FeedbackType.update none 1 none 0)).map
      fun s => (dictGet s.hazards "hz").map Hazard.total_feedback) = some (some 1) ∧
    ((errState (submit_feedback cfgM stZ "hz" "u1" FeedbackType.update none 1 none 0)).map
      fun s => (dictGet s.hazards "hz").map Hazard.confidence_score) = some (some 0) := by
  refine ⟨rfl, rfl, rfl, ?_, ?_, ?_, ?_⟩ <;>
  norm_num +decide [submit_feedback, acceptFeedback, dictGet, dictInsert, indexAppend,
    stZ, hzZ, rejectedByDistance, mkFeedback, recordFeedback, bumpStats,
    applyFeedbackType, update_hazard_status, compute_confidence_score,
    scoreNumer, scoreDenom, aiWeight, status_step, branch_step, expiry_override,
    shouldExpire, cfgM, errState, abs_of_nonneg, abs_of_nonpos]

/-- The claim's severity map coincides with the code's (the claim spells the
detector classes without spaces). -/
theorem severityMapClaim_eq (class_name : String) :
    severityMapClaim class_name = severity_map class_name := rfl

/-- C7 counterexample: for class `"Road Crack"` (base severity `low`) at
confidence 0.9 > 0.8 the code returns `low` unchanged, not the one-level
upgrade `medium` the claim prescribes: the escalation only applies to
`medium`/`high` bases. -/
theorem C7_counterexample :
    severity_map "Road Crack" = "low" ∧ ((9:ℚ)/10 > 4/5) ∧
    upgradeOneLevel "low" = "medium" ∧
    calculate_severity "Road Crack" (9/10) = "low" := by
  refine ⟨rfl, by norm_num, rfl, ?_⟩
  norm_num +decide [calculate_severity, severity_map]

/-- C7 as amended: severity is the lookup-table value (Pothole→high,
Speed Breaker→medium, Debris→critical, Road Crack→low, default medium),
escalated one level when `confidence > 0.8` **and the base is medium or
high** (medium→high, high→critical); `low` and `critical` bases are returned
unchanged. -/
theorem C7_amended_severity (class_name : String) (confidence : ℚ) :
    calculate_severity class_name confidence = severityAmended class_name confidence := by
  simp only [calculate_severity, severityAmended, severityMapClaim_eq]
  by_cases hc : confidence > 4/5 ∧
    (severity_map class_name = "medium" ∨ severity_map class_name = "high")
  · rw [if_pos hc, if_pos hc]
    rcases hc.2 with hb | hb <;> rw [hb] <;> rfl
  · rw [if_neg hc, if_neg hc]

theorem shouldExpire_iff (h : Hazard) (now : ℚ)
    (hpos : ∀ e, h.expires_at = some e → 0 < e) :
    shouldExpire h now = true ↔
      (∃ e, h.expires_at = some e ∧ now > e) ∧ h.confirmations = 0 := by
  unfold shouldExpire
  cases hexp : h.expires_at with
  | none => simp
  | some e =>
    have hne : e ≠ 0 := ne_of_gt (hpos e hexp)
    simp [hne, and_assoc]

theorem contains_key_filter (l : List (String × Hazard))
    (f : (String × Hazard) → Bool) (hnd : (l.map Prod.fst).Nodup)
    (p : String × Hazard) (hp : p ∈ l) :
    ((l.filter f).map Prod.fst).contains p.1 = f p := by
  by_cases hf : f p = true
  · rw [hf]
    have hmem : p.1 ∈ (l.filter f).map Prod.fst :=
      List.mem_map_of_mem Prod.fst (List.mem_filter.mpr ⟨hp, hf⟩)
    simpa using hmem
  · have hf' : f p = false := Bool.eq_false_iff.mpr hf
    rw [hf']
    rw [Bool.eq_false_iff]
    intro hcon
    have hmem : p.1 ∈ (l.filter f).map Prod.fst := by simpa using hcon
    obtain ⟨q, hqf, hqk⟩ := List.mem_map.mp hmem
    obtain ⟨hqmem, hqtrue⟩ := List.mem_filter.mp hqf
    have hqp : q = p := List.inj_on_of_nodup_map hnd hqmem hp hqk
    rw [hqp] at hqtrue
    exact hf hqtrue

theorem cleanup_removes_iff (st : ServiceState) (now : ℚ)
    (hnd : (st.hazards.map Prod.fst).Nodup) :
    (cleanup_expired st now).2.hazards
      = st.hazards.filter (fun p => !(shouldExpire p.2 now)) := by
  unfold cleanup_expired
  apply List.filter_congr
  intro p hp
  rw [contains_key_filter st.hazards (fun p => shouldExpire p.2 now) hnd p hp]

theorem length_filter_not_add (l : List α) (f : α → Bool) :
    (l.filter (fun a => !(f a))).length + (l.filter f).length = l.length := by
  induction l with
  | nil => rfl
  | cons a t ih =>
    by_cases hf : f a = true <;> simp [hf, List.filter_cons] <;> omega

/-- C8: `cleanup_expired` removes a stored hazard exactly when `now` exceeds
its `expires_at` and it has zero confirmations (so a hazard with a
confirmation is never removed, however far past expiry), and the returned
count is the number of removed hazards. (`hnd`: store keys are unique, as
dict keys are; `hpos`: stored expiry timestamps are positive epoch times, as
`add_hazard` creates.) -/
theorem C8_cleanup_expired_spec (st : ServiceState) (now : ℚ)
    (hnd : (st.hazards.map Prod.fst).Nodup)
    (hpos : ∀ p ∈ st.hazards, ∀ e, p.2.expires_at = some e → 0 < e) :
    (∀ p ∈ st.hazards,
      (p ∈ (cleanup_expired st now).2.hazards ↔
        ¬ ((∃ e, p.2.expires_at = some e ∧ now > e) ∧ p.2.confirmations = 0))) ∧
    (∀ p ∈ st.hazards, 0 < p.2.confirmations →
      p ∈ (cleanup_expired st now).2.hazards) ∧
    (cleanup_expired st now).1
      = (st.hazards.filter (fun p => shouldExpire p.2 now)).length ∧
    (cleanup_expired st now).2.hazards.length + (cleanup_expired st now).1
      = st.hazards.length := by
  have hrem := cleanup_removes_iff st now hnd
  have hcount : (cleanup_expired st now).1
      = (st.hazards.filter (fun p => shouldExpire p.2 now)).length := by
    unfold cleanup_expired
    simp
  refine ⟨?_, ?_, hcount, ?_⟩
  · intro p hp
    rw [hrem, List.mem_filter]
    rw [← shouldExpire_iff p.2 now (hpos p hp)]
    simp [hp]
  · intro p hp hconf
    rw [hrem, List.mem_filter]
    refine ⟨hp, ?_⟩
    have : shouldExpire p.2 now = false := by
      unfold shouldExpire
      cases p.2.expires_at <;> simp
      omega
    simp [this]
  · rw [hrem, hcount]
    exact length_filter_not_add st.hazards (fun p => shouldExpire p.2 now)

/-- Fixture: an expirable hazard (confirmations 0, expiry at time 10). -/
def hzE : Hazard :=
  { hzB with hazard_id := "he", expires_at := some 10 }

/-- Fixture store holding the expirable `hzE` and the once-confirmed `hzC`. -/
def stE : ServiceState :=
  { hazards := [("he", hzE), ("hz", hzC)], user_feedback := [("u1", ["hz"])]
    stats := { total_hazards := 2, total_feedback := 1, unique_contributors := 1 } }

/-- Witness for C8 at `now = 100`: `hzE` (expired, unconfirmed) is removed,
`hzC` (confirmed) survives, and the count is 1. -/
theorem C8_cleanup_expired_spec_witness :
    (∀ p ∈ stE.hazards,
      (p ∈ (cleanup_expired stE 100).2.hazards ↔
        ¬ ((∃ e, p.2.expires_at = some e ∧ (100:ℚ) > e) ∧ p.2.confirmations = 0))) ∧
    (∀ p ∈ stE.hazards, 0 < p.2.confirmations →
      p ∈ (cleanup_expired stE 100).2.hazards) ∧
    (cleanup_expired stE 100).1
      = (stE.hazards.filter (fun p => shouldExpire p.2 100)).length ∧
    (cleanup_expired stE 100).2.hazards.length + (cleanup_expired stE 100).1
      = stE.hazards.length :=
  C8_cleanup_expired_spec stE 100
    (by simp [stE])
    (by
      intro p hp e he
      simp only [stE, List.mem_cons, List.mem_singleton, List.not_mem_nil, or_false] at hp
      rcases hp with hp | hp <;> subst hp <;>
        simp [hzE, hzC, hzB] at he <;> subst he <;> norm_num)

/-- C9 counterexample: the unknown-id call and the too-far call return the
identical value `Except.ok (none, st)` — the two failure modes are not
distinguishable from one another, refuting the claim that some such pair of
calls returns different values. -/
theorem C9_counterexample :
    submit_feedback cfgM stB "unknown" "u1" FeedbackType.confirm none 1 none 0
      = Except.ok (none, stB) ∧
    submit_feedback cfgM stB "hz" "u1" FeedbackType.confirm (some (100, 0)) 1 none 0
      = Except.ok (none, stB) ∧
    submit_feedback cfgM stB "unknown" "u1" FeedbackType.confirm none 1 none 0
      = submit_feedback cfgM stB "hz" "u1" FeedbackType.confirm (some (100, 0)) 1 none 0 := by
  refine ⟨?_, ?_, ?_⟩ <;>
  norm_num +decide [submit_feedback, dictGet, stB, hzB, rejectedByDistance, cfgM]

/-- C9 as amended: both failure modes — unknown hazard id, and a supplied
location farther than the proximity radius — return the same `None` sentinel
(`Except.ok (none, st)`), distinguishable from success but not from each
other, and neither is signalled by raising. -/
theorem C9_amended_failure_sentinel (cfg : Config) (st : ServiceState)
    (hazard_id user_id : String) (feedback_type : FeedbackType)
    (user_location : Option (ℚ × ℚ)) (confidence : ℚ) (comment : Option String)
    (now : ℚ)
    (hfail : dictGet st.hazards hazard_id = none ∨
      ∃ hz, dictGet st.hazards hazard_id = some hz ∧
        rejectedByDistance cfg hz user_location = true) :
    submit_feedback cfg st hazard_id user_id feedback_type user_location
      confidence comment now = .ok (none, st) := by
  unfold submit_feedback
  rcases hfail with hnone | ⟨hz, hsome, hrej⟩
  · rw [hnone]
  · rw [hsome]
    simp [hrej]

/-- Witness for the amended C9: an unknown hazard id yields the sentinel. -/
theorem C9_amended_failure_sentinel_witness :
    submit_feedback cfgM stB "unknown" "u1" FeedbackType.deny none 1 none 5
      = .ok (none, stB) :=
  C9_amended_failure_sentinel cfgM stB "unknown" "u1" .deny none 1 none 5
    (Or.inl (by simp [stB, dictGet]))

/-- C10: when the requested `hazard_id` is already a key of the store but the
nearby-duplicate scan finds no match, `add_hazard` silently replaces the
stored hazard with the freshly constructed one (empty history, zero counters,
UNVERIFIED status), still increments `total_hazards`, and the number of
stored hazards does not grow. -/
theorem C10_silent_replacement (cfg : Config) (st : ServiceState)
    (hazard_id class_name : String) (confidence : ℚ) (location : ℚ × ℚ)
    (bbox : List ℚ) (now : ℚ) (oldHz : Hazard)
    (hold : dictGet st.hazards hazard_id = some oldHz)
    (hnone : find_nearby_hazard cfg st location class_name = none) :
    (add_hazard cfg st hazard_id class_name confidence location bbox now).1
      = freshHazard cfg hazard_id class_name confidence location bbox now ∧
    dictGet (add_hazard cfg st hazard_id class_name confidence location bbox now).2.hazards
        hazard_id
      = some (freshHazard cfg hazard_id class_name confidence location bbox now) ∧
    (freshHazard cfg hazard_id class_name confidence location bbox now).total_feedback = 0 ∧
    (freshHazard cfg hazard_id class_name confidence location bbox now).feedback_history = [] ∧
    (freshHazard cfg hazard_id class_name confidence location bbox now).status
      = HazardStatus.unverified ∧
    (add_hazard cfg st hazard_id class_name confidence location bbox now).2.stats.total_hazards
      = st.stats.total_hazards + 1 ∧
    (add_hazard cfg st hazard_id class_name confidence location bbox now).2.hazards.length
      = st.hazards.length := by
  unfold add_hazard
  rw [hnone]
  refine ⟨rfl, ?_, rfl, rfl, rfl, rfl, ?_⟩
  · exact dictGet_dictInsert_self ..
  · exact length_dictInsert_of_isSome _ _ _ (by rw [hold]; rfl)

/-- Witness for C10: re-using the key `"hz"` with a different class
(`"Debris"`, no nearby duplicate) replaces the stored Pothole. -/
theorem C10_silent_replacement_witness :
    (add_hazard cfgM stB "hz" "Debris" (1/2) (0, 0) [] 0).1
      = freshHazard cfgM "hz" "Debris" (1/2) (0, 0) [] 0 ∧
    dictGet (add_hazard cfgM stB "hz" "Debris" (1/2) (0, 0) [] 0).2.hazards "hz"
      = some (freshHazard cfgM "hz" "Debris" (1/2) (0, 0) [] 0) ∧
    (freshHazard cfgM "hz" "Debris" (1/2) (0, 0) [] 0).total_feedback = 0 ∧
    (freshHazard cfgM "hz" "Debris" (1/2) (0, 0) [] 0).feedback_history = [] ∧
    (freshHazard cfgM "hz" "Debris" (1/2) (0, 0) [] 0).status = HazardStatus.unverified ∧
    (add_hazard cfgM stB "hz" "Debris" (1/2) (0, 0) [] 0).2.stats.total_hazards
      = stB.stats.total_hazards + 1 ∧
    (add_hazard cfgM stB "hz" "Debris" (1/2) (0, 0) [] 0).2.hazards.length
      = stB.hazards.length :=
  C10_silent_replacement cfgM stB "hz" "Debris" (1/2) (0, 0) [] 0 hzB
    (by simp [stB, dictGet])
    (by norm_num +decide [find_nearby_hazard, stB, hzB, cfgM])

end Spottr
